import Mathlib

/-!
Verification of the Pict_call streaming pipeline (shallow embedding).

The repository is a React-Native client that records short audio chunks and
streams them to a remote scam-analysis service.  The definitions below are
direct translations of the TypeScript sources:

* `SAState` and its operations embed `src/services/StreamingAnalyzer.ts`;
* `SA2State` and its operations embed the revised analyzer in
  `src/unnamed/part_002` (the variant carrying a `shouldReconnect` flag);
* `ingest0` / `ingestAll0` embed the `onAnalysisUpdate` callback installed by
  `startStreaming` in `src/unnamed/part_000` (suspicion history);
* the store-based `ingestStore` embeds the same callback but keeps the
  JavaScript arrays explicit, to reason about snapshot immutability;
* `Hook0State.startStreaming` embeds `startStreaming` of `src/unnamed/part_000`;
* `HookState.stopStreaming` embeds `stopStreaming` of
  `src/hooks/useAudioStreaming.ts`;
* `onRecordingStatusUpdate` embeds the recording-status callback of
  `src/unnamed/part_000` (the chunk capture loop);
* `analyzeAudio` embeds `src/services/audioAnalysis.ts`.

Asynchronous effects (socket sends, timers, callbacks) are recorded as an
ordered list of `Effect`s / `CapOp`s emitted by each operation; the mutable
fields of the TypeScript objects become fields of explicit state records.
-/

namespace PictCall

/-- Shape of `Partial<CallAnalysisType>` as used by the streaming pipeline:
`{suspicious, confidence, reasons}` (spec section 3, and the fields read by
the code).  An absent `suspicious` field behaves as `false` under JavaScript
truthiness, so it is modelled as a plain `Bool`. -/
structure Fragment where
  suspicious : Bool
  confidence : Rat
  reasons : List String
  deriving DecidableEq, Repr

/-- Full `CallAnalysisType` as fabricated by `analyzeAudio`'s catch branch
(`src/services/audioAnalysis.ts` lines 66-71). -/
structure CallAnalysisType where
  suspicious : Bool
  confidence : Rat
  reasons : List String
  timestamps : List Rat
  deriving DecidableEq, Repr

/-- Observable effects of the analyzer and hook operations: timers scheduled
via `setTimeout`, callbacks invoked, socket operations performed. -/
inductive Effect where
  | scheduleReconnect (delayMs : Nat)
  | errorCallback (msg : String)
  | analysisCallback (fragment : Fragment)
  | wsSend (data : String)
  | wsClose
  | wsOpenChannel
  | stopUnloadDevice
  | disconnectChannel
  deriving DecidableEq, Repr

/-- `maxReconnectAttempts = 3` (both analyzer variants). -/
def maxReconnectAttempts : Nat := 3

/-- The base reconnection delay: `setTimeout(() => this.connect(), 1000 * this.reconnectAttempts)`. -/
def baseDelayMs : Nat := 1000

/-- The terminal error reported when reconnection attempts are exhausted. -/
def connFailureMsg : String := "Failed to establish WebSocket connection"

/-- State of `src/services/StreamingAnalyzer.ts`: `wsOpen` models
`this.ws !== null`, the other fields are the instance fields. -/
structure SAState where
  wsOpen : Bool
  isConnected : Bool
  reconnectAttempts : Nat
  reconnectTimeout : Option Nat
  deriving DecidableEq, Repr

/-- `clearTimeouts()` (StreamingAnalyzer.ts lines 60-65): cancels any pending
reconnect timer. -/
def SAState.clearTimeouts (st : SAState) : SAState :=
  { st with reconnectTimeout := none }

/-- `handleConnectionError()` (StreamingAnalyzer.ts lines 67-77): clear the
pending timer; if fewer than `maxReconnectAttempts` attempts have been made,
increment the counter and schedule `connect()` after `1000 * reconnectAttempts`
ms, else report the terminal connection failure. -/
def SAState.handleConnectionError (st : SAState) : SAState × List Effect :=
  let st := st.clearTimeouts
  if st.reconnectAttempts < maxReconnectAttempts then
    let n := st.reconnectAttempts + 1
    ({ st with reconnectAttempts := n, reconnectTimeout := some (baseDelayMs * n) },
      [Effect.scheduleReconnect (baseDelayMs * n)])
  else
    (st, [Effect.errorCallback connFailureMsg])

/-- The `onclose` handler installed by `connect()` (StreamingAnalyzer.ts lines
49-53): set `isConnected = false` and call `handleConnectionError()`
unconditionally. -/
def SAState.oncloseEvent (st : SAState) : SAState × List Effect :=
  SAState.handleConnectionError { st with isConnected := false }

/-- The `onerror` handler (StreamingAnalyzer.ts lines 44-47). -/
def SAState.onerrorEvent (st : SAState) : SAState × List Effect :=
  SAState.handleConnectionError st

/-- `disconnect()` (StreamingAnalyzer.ts lines 90-104): clear timers; if a
socket exists, null the reference, mark disconnected and close the socket. -/
def SAState.disconnect (st : SAState) : SAState × List Effect :=
  let st := st.clearTimeouts
  if st.wsOpen then
    ({ st with wsOpen := false, isConnected := false }, [Effect.wsClose])
  else
    (st, [])

/-- `sendAudio()` (StreamingAnalyzer.ts lines 79-88): send only when a socket
exists and `isConnected`; otherwise do nothing at all. -/
def SAState.sendAudio (st : SAState) (data : String) : SAState × List Effect :=
  if st.wsOpen && st.isConnected then
    (st, [Effect.wsSend data])
  else
    (st, [])

/-- Result of `JSON.parse` on an inbound frame, when it succeeds: the `error`
field (absent or a string) plus the analysis payload fields. -/
structure InboundData where
  error : Option String
  fragment : Fragment
  deriving DecidableEq, Repr

/-- JavaScript truthiness of `data.error`: absent or empty string is falsy. -/
def jsTruthy : Option String → Bool
  | none => false
  | some s => s != ""

/-- The `onmessage` handler (StreamingAnalyzer.ts lines 29-42).  `JSON.parse`
is the external library call; its outcome is the `parsed` argument, `none`
standing for a parse failure (the `catch` branch, which only logs).  The
function is total, so no exception escapes the handler. -/
def SAState.onmessageEvent (st : SAState) (parsed : Option InboundData) :
    SAState × List Effect :=
  match parsed with
  | none => (st, [])
  | some d =>
    if jsTruthy d.error then
      (st, [Effect.errorCallback (d.error.getD "")])
    else
      (st, [Effect.analysisCallback d.fragment])

/-- Processes `k` successive connection-error events (each unexpected closure
or socket error invokes `handleConnectionError` once), concatenating the
emitted effects in order. -/
def SAState.runErrors (st : SAState) : Nat → SAState × List Effect
  | 0 => (st, [])
  | Nat.succ k =>
    let p := st.handleConnectionError
    let q := p.1.runErrors k
    (q.1, p.2 ++ q.2)

/-- State of the revised analyzer `src/unnamed/part_002`, which adds the
`shouldReconnect` flag and a chunk counter. -/
structure SA2State where
  wsOpen : Bool
  isConnected : Bool
  shouldReconnect : Bool
  reconnectAttempts : Nat
  reconnectTimeout : Option Nat
  chunkCount : Nat
  deriving DecidableEq, Repr

/-- `clearTimeouts()` (part_002 lines 25-30). -/
def SA2State.clearTimeouts (st : SA2State) : SA2State :=
  { st with reconnectTimeout := none }

/-- `handleConnectionError()` (part_002 lines 102-113): reconnect only while
`reconnectAttempts < maxReconnectAttempts && shouldReconnect`. -/
def SA2State.handleConnectionError (st : SA2State) : SA2State × List Effect :=
  let st := st.clearTimeouts
  if st.reconnectAttempts < maxReconnectAttempts && st.shouldReconnect then
    let n := st.reconnectAttempts + 1
    ({ st with reconnectAttempts := n, reconnectTimeout := some (baseDelayMs * n) },
      [Effect.scheduleReconnect (baseDelayMs * n)])
  else
    (st, [Effect.errorCallback connFailureMsg])

/-- `disconnect()` (part_002 lines 85-100): set `shouldReconnect = false`,
clear timers, and close/null the socket if one exists. -/
def SA2State.disconnect (st : SA2State) : SA2State × List Effect :=
  let st := { st with shouldReconnect := false }
  let st := st.clearTimeouts
  if st.wsOpen then
    ({ st with wsOpen := false, isConnected := false }, [Effect.wsClose])
  else
    (st, [])

/-- The `onclose` handler installed by `connect()` (part_002 lines 72-78):
set `isConnected = false`, then call `handleConnectionError()` only if
`shouldReconnect`. -/
def SA2State.oncloseEvent (st : SA2State) : SA2State × List Effect :=
  let st := { st with isConnected := false }
  if st.shouldReconnect then
    st.handleConnectionError
  else
    (st, [])

/-- `sendAudio()` (part_002 lines 115-126): send and bump `chunkCount` only
when a socket exists and `isConnected`; otherwise do nothing at all. -/
def SA2State.sendAudio (st : SA2State) (data : String) : SA2State × List Effect :=
  if st.wsOpen && st.isConnected then
    ({ st with chunkCount := st.chunkCount + 1 }, [Effect.wsSend data])
  else
    (st, [])

/-- One ingest step: the `onAnalysisUpdate` callback passed to
`new StreamingAnalyzer` in `src/unnamed/part_000` lines 185-193.  If the
fragment is suspicious it is appended to the history
(`analysisHistoryRef.current = [...analysisHistoryRef.current, analysis]`);
the fragment, augmented with the current history, is always forwarded to the
UI callback.  Returns the new history and the forwarded
`(fragment, history snapshot)` pair. -/
def ingest0 (history : List Fragment) (f : Fragment) :
    List Fragment × (Fragment × List Fragment) :=
  let h := if f.suspicious then history ++ [f] else history
  (h, (f, h))

/-- Folds `ingest0` over a sequence of inbound fragments, collecting the UI
callback invocations in order. -/
def ingestAll0 (history : List Fragment) :
    List Fragment → List Fragment × List (Fragment × List Fragment)
  | [] => (history, [])
  | f :: fs =>
    let p := ingest0 history f
    let q := ingestAll0 p.1 fs
    (q.1, p.2 :: q.2)

/-- Effect of `stopStreaming` (part_000 line 148) on the history ref:
`analysisHistoryRef.current = []`. -/
def stopStreamingHistory (_history : List Fragment) : List Fragment := []

/-- Effect of `startStreaming` (part_000 lines 157-209) on the history ref:
`startStreaming` never writes `analysisHistoryRef`, so the history is
unchanged. -/
def startStreamingHistory (history : List Fragment) : List Fragment := history

/-- A JavaScript heap of arrays of fragments: an address is an index into
`arrays`.  Used to make the sharing structure of the history arrays handed to
the UI callback explicit. -/
structure Store where
  arrays : List (List Fragment)
  deriving DecidableEq, Repr

/-- Allocates a fresh array, returning its address. -/
def Store.alloc (s : Store) (v : List Fragment) : Store × Nat :=
  ({ arrays := s.arrays ++ [v] }, s.arrays.length)

/-- Reads the array at an address. -/
def Store.readAddr (s : Store) (a : Nat) : List Fragment :=
  s.arrays.getD a []

/-- Heap-level model of one ingest (part_000 lines 185-193):
`[...analysisHistoryRef.current, analysis]` allocates a FRESH array holding
the old contents plus the fragment — the old array is not mutated.  The UI
callback receives the address currently held by the ref.  Returns the new
store, the ref's new address, and the delivered `(fragment, snapshot address)`. -/
def ingestStore (s : Store) (histAddr : Nat) (f : Fragment) :
    Store × Nat × (Fragment × Nat) :=
  if f.suspicious then
    let p := s.alloc (s.readAddr histAddr ++ [f])
    (p.1, p.2, (f, p.2))
  else
    (s, histAddr, (f, histAddr))

/-- Folds `ingestStore` over a sequence of fragments. -/
def ingestAllStore (s : Store) (a : Nat) :
    List Fragment → Store × Nat × List (Fragment × Nat)
  | [] => (s, a, [])
  | f :: fs =>
    let p := ingestStore s a f
    let q := ingestAllStore p.1 p.2.1 fs
    (q.1, q.2.1, p.2.2 :: q.2.2)

/-- State of the `useAudioStreaming` hook of `src/unnamed/part_000`, together
with the number of live WebSocket connections in the environment
(`openChannels`): each `new StreamingAnalyzer(...).connect()` opens one, and
only `disconnect()` on that same instance would close it. -/
structure Hook0State where
  isStreaming : Bool
  isInitializing : Bool
  hasAnalyzer : Bool
  openChannels : Nat
  errorMsg : Option String
  deriving DecidableEq, Repr

/-- `startStreaming` of part_000 lines 157-209.  Guard: `if (isInitializing)
return;` — a call while already initializing changes nothing and opens no
channel.  Otherwise: set `isInitializing`, request permission (`granted` is
the external outcome; denial throws, caught by the catch branch), replace
`analyzerRef.current` with a fresh analyzer WITHOUT disconnecting any previous
one, set `isStreaming`, and `connect()` the new analyzer (opening one more
WebSocket); `finally` clears `isInitializing`. -/
def Hook0State.startStreaming (st : Hook0State) (granted : Bool) :
    Hook0State × List Effect :=
  if st.isInitializing then
    (st, [])
  else
    let st := { st with isInitializing := true }
    if !granted then
      ({ st with errorMsg := some "Microphone permission denied",
                 isStreaming := false, isInitializing := false }, [])
    else
      ({ st with hasAnalyzer := true, isStreaming := true,
                 openChannels := st.openChannels + 1,
                 isInitializing := false }, [Effect.wsOpenChannel])

/-- A capture-device handle (`Audio.Recording`): `uri` is what `getURI()`
returns after the recording is stopped; `isDoneRecording` models the
`_isDoneRecording` flag read by `cleanupRecording`. -/
structure RecordingHandle where
  uri : Option String
  isDoneRecording : Bool
  deriving DecidableEq, Repr

/-- State of the `useAudioStreaming` hook of `src/hooks/useAudioStreaming.ts`. -/
structure HookState where
  isStreaming : Bool
  isInitializing : Bool
  recording : Option RecordingHandle
  hasAnalyzer : Bool
  errorMsg : Option String
  deriving DecidableEq, Repr

/-- `cleanupRecording` (useAudioStreaming.ts lines 16-28): if a recording
handle is held, null the ref first, then stop-and-unload it when
`_isDoneRecording`; any error is caught and logged. -/
def HookState.cleanupRecording (st : HookState) : HookState × List Effect :=
  match st.recording with
  | none => (st, [])
  | some r =>
    let st := { st with recording := none }
    if r.isDoneRecording then (st, [Effect.stopUnloadDevice]) else (st, [])

/-- `stopStreaming` (useAudioStreaming.ts lines 125-134): set
`isStreaming = false`; if an analyzer exists, disconnect it and null the ref;
then `cleanupRecording()`.  The function is total: it never throws. -/
def HookState.stopStreaming (st : HookState) : HookState × List Effect :=
  let st := { st with isStreaming := false }
  let p :=
    if st.hasAnalyzer then
      (({ st with hasAnalyzer := false } : HookState), [Effect.disconnectChannel])
    else
      (st, ([] : List Effect))
  let q := p.1.cleanupRecording
  (q.1, p.2 ++ q.2)

/-- Operations performed (in order) by one run of the capture-status callback:
stopping/releasing the device, reading the finalized segment, handing it to
the transport channel, beginning the next acquisition, deleting the temp
file.  `awaitAnalysis` would be a wait for the remote analysis result; the
callback never performs it (results arrive asynchronously on the socket). -/
inductive CapOp where
  | deviceStop
  | readSegment
  | transmit
  | acquireNext
  | deleteTemp
  | awaitAnalysis
  deriving DecidableEq, Repr

/-- `CHUNK_DURATION = 3000` ms (part_000 line 7). -/
def CHUNK_DURATION : Nat := 3000

/-- State read by the capture-status callback of part_000. -/
structure CapState where
  isStreaming : Bool
  recording : Option RecordingHandle
  hasAnalyzer : Bool
  chunkCount : Nat
  deriving DecidableEq, Repr

/-- The `setOnRecordingStatusUpdate` callback of part_000 lines 79-117.
Guards: return unless streaming with a held recording; when the chunk has
reached `CHUNK_DURATION`, take the handle (null the ref), stop and unload the
device, read its URI; if a URI, an analyzer and the streaming flag are all
present: read the file, `sendAudio` it, start the next recording
(fire-and-forget, before cleanup), then delete the temp file. -/
def onRecordingStatusUpdate (st : CapState) (isRecording : Bool)
    (durationMillis : Nat) : CapState × List CapOp :=
  if !st.isStreaming || st.recording.isNone then
    (st, [])
  else
    match st.recording with
    | none => (st, [])
    | some r =>
      if isRecording ∧ CHUNK_DURATION ≤ durationMillis then
        let st := { st with chunkCount := st.chunkCount + 1, recording := none }
        match r.uri with
        | some _ =>
          if st.hasAnalyzer && st.isStreaming then
            (st, [CapOp.deviceStop, CapOp.readSegment, CapOp.transmit,
                  CapOp.acquireNext, CapOp.deleteTemp])
          else
            (st, [CapOp.deviceStop])
        | none => (st, [CapOp.deviceStop])
      else
        (st, [])

/-- Outcome of an HTTP `fetch`: the `ok` flag, the status code, and the
outcome of `response.json()`. -/
structure HttpResponse where
  ok : Bool
  status : Nat
  jsonResult : Except String CallAnalysisType
  deriving Repr

/-- `MAX_RETRIES = 3` (audioAnalysis.ts line 6). -/
def MAX_RETRIES : Nat := 3

/-- `retryOperation` (audioAnalysis.ts lines 9-19): run the operation; on
failure, if retries remain, wait `RETRY_DELAY` and recurse with one retry
fewer, else rethrow.  `op n` is the outcome of the n-th invocation (0-based),
so up to `MAX_RETRIES + 1` invocations occur in total. -/
def retryOperation {α : Type} (op : Nat → Except String α) :
    Nat → Nat → Except String α
  | attempt, retries =>
    match op attempt with
    | Except.ok a => Except.ok a
    | Except.error e =>
      match retries with
      | 0 => Except.error e
      | Nat.succ rest => retryOperation op (attempt + 1) rest

/-- Outcomes of the external steps performed by `analyzeAudio`: reading the
file as base64, building the blob, and each `fetch` attempt. -/
structure AnalyzeEnv where
  readResult : Except String String
  blobResult : Except String Unit
  fetchResult : Nat → Except String HttpResponse

/-- The `try` block of `analyzeAudio` (audioAnalysis.ts lines 22-63): read the
file, build the blob, POST with `retryOperation`, throw on `!response.ok`,
parse the JSON body. -/
def analyzeAudioRun (env : AnalyzeEnv) : Except String CallAnalysisType := do
  let _content ← env.readResult
  let _blob ← env.blobResult
  let resp ← retryOperation env.fetchResult 0 MAX_RETRIES
  if resp.ok then
    resp.jsonResult
  else
    Except.error ("HTTP error! status: " ++ toString resp.status)

/-- `analyzeAudio` (audioAnalysis.ts lines 21-73): on any failure in the try
block the catch branch resolves to the fabricated result
`{suspicious: false, confidence: 0, reasons: ["Analysis failed: " + message],
timestamps: []}` — the function never rejects. -/
def analyzeAudio (env : AnalyzeEnv) : CallAnalysisType :=
  match analyzeAudioRun env with
  | Except.ok r => r
  | Except.error e =>
    { suspicious := false, confidence := 0,
      reasons := ["Analysis failed: " ++ e], timestamps := [] }

/-! ## Theorems -/

/-- C6: for every malformed inbound message (text that is not valid JSON),
processing the message invokes neither the analysis-fragment callback nor the
error callback, leaves the analyzer state unchanged, and — the handler being a
total function whose `catch` branch only logs — no exception escapes it. -/
theorem c6_malformed_message_silent (st : SAState) :
    SAState.onmessageEvent st none = (st, []) := rfl

/-- C5: if `sendAudio` is called while the transport channel is not currently
open (no socket object or not connected), the segment is silently dropped —
no effect is emitted (no queueing, no error callback, no send) and the state
is unchanged; and a segment sent while the channel is connected is handed to
`ws.send` normally. -/
theorem c5_send_drops_when_not_open :
    (∀ (st : SA2State) (d : String), (st.wsOpen && st.isConnected) = false →
      SA2State.sendAudio st d = (st, []))
    ∧ (∀ (st : SA2State) (d : String), st.wsOpen = true → st.isConnected = true →
      (SA2State.sendAudio st d).2 = [Effect.wsSend d]) := by
  constructor
  · intro st d h
    simp [SA2State.sendAudio, h]
  · intro st d h1 h2
    simp [SA2State.sendAudio, h1, h2]

/-- Witness for C5: a concrete segment produced before the channel finished
opening is dropped with no state change; a segment sent once connected is
transmitted. -/
theorem c5_send_drops_when_not_open_witness :
    SA2State.sendAudio ⟨true, false, true, 0, none, 0⟩ "chunk1" =
      (⟨true, false, true, 0, none, 0⟩, [])
    ∧ (SA2State.sendAudio ⟨true, true, true, 0, none, 0⟩ "chunk2").2 =
      [Effect.wsSend "chunk2"] :=
  ⟨c5_send_drops_when_not_open.1 ⟨true, false, true, 0, none, 0⟩ "chunk1" rfl,
   c5_send_drops_when_not_open.2 ⟨true, true, true, 0, none, 0⟩ "chunk2" rfl rfl⟩

/-- C7: calling `stopStreaming` when the session was never started (no
recording handle and no analyzer/channel) is a no-op that never throws (the
embedded function is total): it performs no effect, holds no channel and no
device handle afterwards, and the streaming flag is false. -/
theorem c7_stop_never_started_noop (st : HookState)
    (hr : st.recording = none) (ha : st.hasAnalyzer = false) :
    HookState.stopStreaming st = ({ st with isStreaming := false }, []) := by
  cases st with
  | mk s ii r a e =>
    obtain rfl : r = none := hr
    obtain rfl : a = false := ha
    rfl

/-- Witness for C7: stopping from the initial, never-started hook state. -/
theorem c7_stop_never_started_noop_witness :
    HookState.stopStreaming ⟨false, false, none, false, none⟩ =
      (⟨false, false, none, false, none⟩, []) :=
  c7_stop_never_started_noop ⟨false, false, none, false, none⟩ rfl rfl

/-- C2 fails on `src/services/StreamingAnalyzer.ts`: after a deliberate
`disconnect()` from a connected state with no attempts used, the socket's
`onclose` handler still runs `handleConnectionError()` unconditionally, which
DOES schedule a reconnect timer (1000 ms) — contradicting the claim that the
closure following a deliberate disconnect never schedules a reconnect. -/
theorem c2_counterexample_named_analyzer :
    ((SAState.disconnect ⟨true, true, 0, none⟩).1.oncloseEvent).2 =
      [Effect.scheduleReconnect 1000]
    ∧ ((SAState.disconnect ⟨true, true, 0, none⟩).1.oncloseEvent).1.reconnectTimeout =
      some 1000 := by
  constructor <;> rfl

/-- C2 (amended): in the revised analyzer `src/unnamed/part_002`,
`disconnect()` sets `shouldReconnect = false`, so the socket's closure
following a deliberate disconnect produces no effect at all — no reconnect
timer is scheduled, the error callback is not invoked, and no timer remains
pending. -/
theorem c2_amended_disconnect_suppresses_reconnect (st : SA2State) :
    ((st.disconnect).1.oncloseEvent).2 = []
    ∧ ((st.disconnect).1.oncloseEvent).1.reconnectTimeout = none := by
  cases st with
  | mk w c sr ra rt cc =>
    cases w <;> simp [SA2State.disconnect, SA2State.clearTimeouts,
      SA2State.oncloseEvent]

/-- C4 fails as a universal statement about sequences of `start()` calls: in
`src/unnamed/part_000`, a second `startStreaming()` made after the first one
completed (so `isInitializing` is false again, with no intervening stop)
replaces the analyzer without disconnecting it and opens a second WebSocket,
so two connections exist. -/
theorem c4_counterexample_two_completed_starts :
    ((Hook0State.startStreaming
        ((Hook0State.startStreaming ⟨false, false, false, 0, none⟩ true).1)
        true).1).openChannels = 2 := rfl

/-- C4 (amended): calling `startStreaming` while the session is already
initializing is a no-op — the state (hence the session) is unchanged and no
channel-opening (or any other) effect is produced, so such a call opens no
second transport channel.  (The at-most-one-connection consequence claimed
for arbitrary start sequences does not hold: see the counterexample.) -/
theorem c4_amended_start_noop_while_initializing (st : Hook0State) (g : Bool)
    (h : st.isInitializing = true) :
    Hook0State.startStreaming st g = (st, []) := by
  simp [Hook0State.startStreaming, h]

/-- Witness for C4 (amended): a start call in a concrete initializing state
changes nothing and opens nothing. -/
theorem c4_amended_start_noop_while_initializing_witness :
    Hook0State.startStreaming ⟨false, true, false, 0, none⟩ true =
      (⟨false, true, false, 0, none⟩, []) :=
  c4_amended_start_noop_while_initializing ⟨false, true, false, 0, none⟩ true rfl

/-- C8: within one capture cycle of the part_000 status callback, the
operations happen strictly in the order device stop, then read of the
finalized segment, then transmit; the next cycle's acquisition begins only
after the segment was handed to the channel and after the device was stopped
and unloaded; and the callback never waits for the analysis result. -/
theorem c8_capture_cycle_ordering (st : CapState) (r : RecordingHandle)
    (u : String) (d : Nat)
    (hs : st.isStreaming = true) (hr : st.recording = some r)
    (hu : r.uri = some u) (ha : st.hasAnalyzer = true)
    (hd : CHUNK_DURATION ≤ d) :
    (onRecordingStatusUpdate st true d).2 =
      [CapOp.deviceStop, CapOp.readSegment, CapOp.transmit,
       CapOp.acquireNext, CapOp.deleteTemp]
    ∧ CapOp.awaitAnalysis ∉ (onRecordingStatusUpdate st true d).2
    ∧ (onRecordingStatusUpdate st true d).2.indexOf CapOp.deviceStop <
        (onRecordingStatusUpdate st true d).2.indexOf CapOp.readSegment
    ∧ (onRecordingStatusUpdate st true d).2.indexOf CapOp.readSegment <
        (onRecordingStatusUpdate st true d).2.indexOf CapOp.transmit
    ∧ (onRecordingStatusUpdate st true d).2.indexOf CapOp.transmit <
        (onRecordingStatusUpdate st true d).2.indexOf CapOp.acquireNext := by
  have ht : (onRecordingStatusUpdate st true d).2 =
      [CapOp.deviceStop, CapOp.readSegment, CapOp.transmit,
       CapOp.acquireNext, CapOp.deleteTemp] := by
    simp [onRecordingStatusUpdate, hs, hr, hu, ha, hd]
  refine ⟨ht, ?_, ?_, ?_, ?_⟩ <;> rw [ht] <;> decide

/-- Witness for C8: a concrete full capture cycle. -/
theorem c8_capture_cycle_ordering_witness :
    (onRecordingStatusUpdate ⟨true, some ⟨some "file.wav", true⟩, true, 0⟩
        true 3000).2 =
      [CapOp.deviceStop, CapOp.readSegment, CapOp.transmit,
       CapOp.acquireNext, CapOp.deleteTemp]
    ∧ CapOp.awaitAnalysis ∉
        (onRecordingStatusUpdate ⟨true, some ⟨some "file.wav", true⟩, true, 0⟩
          true 3000).2 :=
  have h := c8_capture_cycle_ordering ⟨true, some ⟨some "file.wav", true⟩, true, 0⟩
    ⟨some "file.wav", true⟩ "file.wav" 3000 rfl rfl rfl rfl (by decide)
  ⟨h.1, h.2.1⟩

/-- Effects of `k` successive connection-error events, from an arbitrary
attempt count: one scheduled reconnect per remaining attempt, with linearly
increasing delays, followed by one terminal error report per further event. -/
lemma runErrors_effects (k : Nat) : ∀ st : SAState,
    (st.runErrors k).2 =
      (List.range' (st.reconnectAttempts + 1)
          (min k (maxReconnectAttempts - st.reconnectAttempts))).map
        (fun n => Effect.scheduleReconnect (baseDelayMs * n))
      ++ List.replicate (k - (maxReconnectAttempts - st.reconnectAttempts))
          (Effect.errorCallback connFailureMsg) := by
  induction k with
  | zero =>
    intro st
    simp [SAState.runErrors]
  | succ k ih =>
    intro st
    by_cases h : st.reconnectAttempts < maxReconnectAttempts
    · have hm : maxReconnectAttempts - st.reconnectAttempts =
          (maxReconnectAttempts - (st.reconnectAttempts + 1)) + 1 := by omega
      have hstep : st.runErrors (k + 1) =
          (let p := st.handleConnectionError
           let q := p.1.runErrors k
           (q.1, p.2 ++ q.2)) := rfl
      rw [hstep]
      simp only [SAState.handleConnectionError, SAState.clearTimeouts, if_pos h]
      rw [ih]
      simp only [hm, Nat.succ_min_succ, List.range'_succ]
      simp only [List.map_cons, List.cons_append, List.singleton_append,
        List.nil_append, Nat.succ_sub_succ]
    · have hm : maxReconnectAttempts - st.reconnectAttempts = 0 := by omega
      have hstep : st.runErrors (k + 1) =
          (let p := st.handleConnectionError
           let q := p.1.runErrors k
           (q.1, p.2 ++ q.2)) := rfl
      rw [hstep]
      simp only [SAState.handleConnectionError, SAState.clearTimeouts, if_neg h]
      rw [ih]
      simp [hm, List.replicate_succ]

/-- After more connection-error events than remaining attempts, no reconnect
timer is left pending. -/
lemma runErrors_timeout_none (k : Nat) : ∀ st : SAState,
    st.reconnectAttempts ≤ maxReconnectAttempts →
    maxReconnectAttempts < st.reconnectAttempts + k →
    (st.runErrors k).1.reconnectTimeout = none := by
  induction k with
  | zero =>
    intro st ha hk
    exact absurd hk (by omega)
  | succ k ih =>
    intro st ha hk
    have hstep : st.runErrors (k + 1) =
        (let p := st.handleConnectionError
         let q := p.1.runErrors k
         (q.1, p.2 ++ q.2)) := rfl
    rw [hstep]
    by_cases h : st.reconnectAttempts < maxReconnectAttempts
    · simp only [SAState.handleConnectionError, SAState.clearTimeouts, if_pos h]
      exact ih _ (by simpa using h) (by simp; omega)
    · simp only [SAState.handleConnectionError, SAState.clearTimeouts, if_neg h]
      by_cases hk0 : k = 0
      · subst hk0
        rfl
      · exact ih _ (by simpa using ha) (by simp; omega)

/-- C1: starting from a fresh connection (attempt counter 0), a run of `k`
unexpected closure/error events schedules reconnection attempts 1, 2, 3 with
delays of exactly n × 1000 ms for the n-th attempt, makes at most
`maxReconnectAttempts = 3` attempts, reports the terminal connection-failure
error via the error callback for every event past exhaustion, and leaves no
reconnect timer pending once attempts are exhausted (no further attempt
without an explicit reopen). -/
theorem c1_linear_backoff_and_exhaustion (st : SAState) (k : Nat)
    (h0 : st.reconnectAttempts = 0) :
    (st.runErrors k).2 =
      (List.range' 1 (min k maxReconnectAttempts)).map
        (fun n => Effect.scheduleReconnect (baseDelayMs * n))
      ++ List.replicate (k - maxReconnectAttempts)
          (Effect.errorCallback connFailureMsg)
    ∧ (maxReconnectAttempts < k →
        (st.runErrors k).1.reconnectTimeout = none) := by
  constructor
  · have h := runErrors_effects k st
    rw [h0] at h
    simpa using h
  · intro hk
    exact runErrors_timeout_none k st (by omega) (by omega)

/-- Witness for C1: five consecutive connection errors from a fresh state
produce attempts after 1000, 2000 and 3000 ms, then two terminal error
reports, and leave no pending reconnect timer. -/
theorem c1_linear_backoff_and_exhaustion_witness :
    (SAState.runErrors ⟨true, false, 0, none⟩ 5).2 =
      [Effect.scheduleReconnect 1000, Effect.scheduleReconnect 2000,
       Effect.scheduleReconnect 3000, Effect.errorCallback connFailureMsg,
       Effect.errorCallback connFailureMsg]
    ∧ (SAState.runErrors ⟨true, false, 0, none⟩ 5).1.reconnectTimeout = none := by
  have h := c1_linear_backoff_and_exhaustion ⟨true, false, 0, none⟩ 5 rfl
  refine ⟨?_, h.2 (by decide)⟩
  rw [h.1]
  rfl

/-- The final history after ingesting a fragment sequence is the starting
history followed by the suspicious subsequence. -/
lemma ingestAll0_fst (fs : List Fragment) : ∀ h : List Fragment,
    (ingestAll0 h fs).1 = h ++ fs.filter (fun f => f.suspicious) := by
  induction fs with
  | nil =>
    intro h
    simp [ingestAll0]
  | cons f fs ih =>
    intro h
    cases hsusp : f.suspicious <;>
      simp [ingestAll0, ingest0, hsusp, ih, List.filter_cons]

/-- Every ingested fragment is forwarded to the UI callback, in order. -/
lemma ingestAll0_map_fst (fs : List Fragment) : ∀ h : List Fragment,
    (ingestAll0 h fs).2.map Prod.fst = fs := by
  induction fs with
  | nil =>
    intro h
    simp [ingestAll0]
  | cons f fs ih =>
    intro h
    simp [ingestAll0, ingest0, ih]

/-- The i-th UI callback receives the i-th fragment together with the history
snapshot at that point: the starting history followed by the suspicious
members of the first `i + 1` fragments. -/
lemma ingestAll0_getElem? (fs : List Fragment) : ∀ (h : List Fragment)
    (i : Nat) (f : Fragment), fs[i]? = some f →
    (ingestAll0 h fs).2[i]? =
      some (f, h ++ (fs.take (i + 1)).filter (fun x => x.suspicious)) := by
  induction fs with
  | nil =>
    intro h i f hf
    simp at hf
  | cons g fs ih =>
    intro h i f hf
    cases i with
    | zero =>
      have hg : g = f := by simpa using hf
      subst hg
      cases hsusp : g.suspicious <;>
        simp [ingestAll0, ingest0, hsusp, List.filter_cons]
    | succ i =>
      have hf2 : fs[i]? = some f := by simpa using hf
      cases hsusp : g.suspicious
      · have := ih h i f hf2
        simpa [ingestAll0, ingest0, hsusp, List.filter_cons] using this
      · have := ih (h ++ [g]) i f hf2
        simpa [ingestAll0, ingest0, hsusp, List.filter_cons,
          List.append_assoc] using this

/-- C3: for a session started after a previous stop (the stop handler resets
the history ref to `[]` and `startStreaming` does not write it, so the
history begins empty), the suspicion history after ingesting a fragment
sequence is exactly the ordered subsequence of fragments with
`suspicious = true`; every fragment is forwarded to the UI callback in order;
and the i-th callback carries the history snapshot of the first `i + 1`
fragments. -/
theorem c3_history_is_suspicious_subsequence (h0 : List Fragment)
    (fs : List Fragment) :
    (ingestAll0 (startStreamingHistory (stopStreamingHistory h0)) fs).1 =
      fs.filter (fun f => f.suspicious)
    ∧ (ingestAll0 (startStreamingHistory (stopStreamingHistory h0)) fs).2.map
        Prod.fst = fs
    ∧ ∀ (i : Nat) (f : Fragment), fs[i]? = some f →
        (ingestAll0 (startStreamingHistory (stopStreamingHistory h0)) fs).2[i]? =
          some (f, (fs.take (i + 1)).filter (fun x => x.suspicious)) := by
  refine ⟨?_, ingestAll0_map_fst fs _, ?_⟩
  · simpa [startStreamingHistory, stopStreamingHistory] using
      ingestAll0_fst fs []
  · intro i f hf
    simpa [startStreamingHistory, stopStreamingHistory] using
      ingestAll0_getElem? fs [] i f hf

/-- A suspicious fragment, as in the spec scenario. -/
def fragSusp : Fragment :=
  { suspicious := true, confidence := 9 / 10, reasons := ["otp request"] }

/-- A non-suspicious fragment. -/
def fragOk : Fragment :=
  { suspicious := false, confidence := 0, reasons := [] }

/-- Witness for C3: restarting after a stop with a non-empty old history, then
ingesting a suspicious fragment followed by a non-suspicious one, yields a
one-element history, and the second callback still carries that snapshot. -/
theorem c3_history_is_suspicious_subsequence_witness :
    (ingestAll0 (startStreamingHistory (stopStreamingHistory [fragOk]))
        [fragSusp, fragOk]).1 = [fragSusp]
    ∧ (ingestAll0 (startStreamingHistory (stopStreamingHistory [fragOk]))
        [fragSusp, fragOk]).2[1]? = some (fragOk, [fragSusp]) := by
  have h := c3_history_is_suspicious_subsequence [fragOk] [fragSusp, fragOk]
  refine ⟨?_, h.2.2 1 fragOk rfl⟩
  rw [h.1]
  rfl

/-- Appending fragments never shrinks the heap of history arrays. -/
lemma ingestAllStore_length_mono (fs : List Fragment) : ∀ (s : Store) (a : Nat),
    s.arrays.length ≤ ((ingestAllStore s a fs).1).arrays.length := by
  induction fs with
  | nil =>
    intro s a
    simp [ingestAllStore]
  | cons f fs ih =>
    intro s a
    cases hsusp : f.suspicious
    · simpa [ingestAllStore, ingestStore, hsusp] using ih s a
    · have := ih ⟨s.arrays ++ [s.readAddr a ++ [f]]⟩ s.arrays.length
      simp only [ingestAllStore, ingestStore, hsusp, Store.alloc] at *
      simp at this ⊢
      omega

/-- Frame property: ingesting fragments only allocates fresh arrays, so the
contents of every array address that already existed are unchanged. -/
lemma ingestAllStore_frame (fs : List Fragment) : ∀ (s : Store) (a j : Nat),
    j < s.arrays.length →
    ((ingestAllStore s a fs).1).readAddr j = s.readAddr j := by
  induction fs with
  | nil =>
    intro s a j hj
    simp [ingestAllStore]
  | cons f fs ih =>
    intro s a j hj
    cases hsusp : f.suspicious
    · simpa [ingestAllStore, ingestStore, hsusp] using ih s a j hj
    · have hrec := ih ⟨s.arrays ++ [s.readAddr a ++ [f]]⟩ s.arrays.length j
        (by simp; omega)
      simp only [ingestAllStore, ingestStore, hsusp, Store.alloc,
        if_pos] at hrec ⊢
      rw [hrec]
      exact List.getD_append _ _ _ _ hj

/-- Every snapshot address delivered to the UI callback is a valid address of
the final heap. -/
lemma ingestAllStore_out_valid (fs : List Fragment) : ∀ (s : Store) (a : Nat),
    a < s.arrays.length →
    ∀ pr ∈ (ingestAllStore s a fs).2.2,
      pr.2 < ((ingestAllStore s a fs).1).arrays.length := by
  induction fs with
  | nil =>
    intro s a ha pr hpr
    simp [ingestAllStore] at hpr
  | cons f fs ih =>
    intro s a ha pr hpr
    cases hsusp : f.suspicious
    · simp only [ingestAllStore, ingestStore, hsusp, Bool.false_eq_true,
        if_neg, ite_false, List.mem_cons] at hpr ⊢
      rcases hpr with hpr | hpr
      · subst hpr
        exact lt_of_lt_of_le ha (ingestAllStore_length_mono fs s a)
      · exact ih s a ha pr hpr
    · simp only [ingestAllStore, ingestStore, hsusp, ite_true, Store.alloc,
        List.mem_cons] at hpr ⊢
      rcases hpr with hpr | hpr
      · subst hpr
        refine lt_of_lt_of_le ?_
          (ingestAllStore_length_mono fs ⟨s.arrays ++ [s.readAddr a ++ [f]]⟩
            s.arrays.length)
        simp
      · exact ih ⟨s.arrays ++ [s.readAddr a ++ [f]]⟩ s.arrays.length
          (by simp) pr hpr

/-- C9: every history snapshot delivered to the UI callback is immutable
after delivery: each append allocates a fresh array (never mutating one
already handed out), so ingesting any later fragments leaves the contents of
every previously delivered snapshot address unchanged. -/
theorem c9_delivered_snapshots_immutable (s : Store) (a : Nat)
    (fs1 fs2 : List Fragment) (f : Fragment) (addr : Nat)
    (ha : a < s.arrays.length)
    (hmem : (f, addr) ∈ (ingestAllStore s a fs1).2.2) :
    ((ingestAllStore (ingestAllStore s a fs1).1
        (ingestAllStore s a fs1).2.1 fs2).1).readAddr addr =
      ((ingestAllStore s a fs1).1).readAddr addr := by
  apply ingestAllStore_frame
  exact ingestAllStore_out_valid fs1 s a ha (f, addr) hmem

/-- Witness for C9: the snapshot delivered for a first suspicious fragment is
unchanged after a further suspicious fragment is ingested. -/
theorem c9_delivered_snapshots_immutable_witness :
    ((ingestAllStore (ingestAllStore ⟨[[]]⟩ 0 [fragSusp]).1
        (ingestAllStore ⟨[[]]⟩ 0 [fragSusp]).2.1 [fragOk, fragSusp]).1).readAddr 1 =
      ((ingestAllStore ⟨[[]]⟩ 0 [fragSusp]).1).readAddr 1 :=
  c9_delivered_snapshots_immutable ⟨[[]]⟩ 0 [fragSusp] [fragOk, fragSusp]
    fragSusp 1 (by decide)
    (by simp [ingestAllStore, ingestStore, Store.alloc, Store.readAddr, fragSusp])

/-- C10: `analyzeAudio` never rejects: whenever the try block fails (reading
the file, building the blob, the upload after all retries, a non-ok HTTP
status, or parsing the response body), it resolves to the fabricated result
`{suspicious: false, confidence: 0, reasons: [one failure message],
timestamps: []}`; and `retryOperation` on an always-failing operation performs
exactly `MAX_RETRIES + 1` attempts and propagates the last failure. -/
theorem c10_analyze_audio_never_rejects :
    (∀ (env : AnalyzeEnv) (e : String), analyzeAudioRun env = Except.error e →
      analyzeAudio env =
        { suspicious := false, confidence := 0,
          reasons := ["Analysis failed: " ++ e], timestamps := [] })
    ∧ (∀ msgs : Nat → String,
        retryOperation
            (fun n => (Except.error (msgs n) : Except String HttpResponse))
            0 MAX_RETRIES
          = Except.error (msgs 3)) := by
  constructor
  · intro env e h
    unfold analyzeAudio
    rw [h]
  · intro msgs
    rfl

/-- Witness for C10: with every fetch attempt failing with a network error,
`analyzeAudio` resolves to the fabricated non-suspicious result carrying the
single failure message. -/
theorem c10_analyze_audio_never_rejects_witness :
    analyzeAudio
        { readResult := Except.ok "UklGRg=="
        , blobResult := Except.ok ()
        , fetchResult := fun _ => Except.error "Network request failed" } =
      { suspicious := false, confidence := 0,
        reasons := ["Analysis failed: Network request failed"],
        timestamps := [] } :=
  c10_analyze_audio_never_rejects.1
    { readResult := Except.ok "UklGRg=="
    , blobResult := Except.ok ()
    , fetchResult := fun _ => Except.error "Network request failed" }
    "Network request failed" rfl

end PictCall
